import Mathlib

/-!
# Verification of `Source/Parser/svg_to_juce.py`

A shallow embedding of the SVG-to-JUCE converter script, together with proofs
of the specified properties.  Python floats carry exact decimal values in every
scenario the script handles, so coordinates are modelled as rationals (`ℚ`);
attribute access `element.get(name, default)` is modelled with `Option`;
the JSON-shaped mapping file is modelled at the JSON value level, with Python
dicts as association lists in insertion order.
-/

/-- Models Python `str.startswith`: prefix test on the character lists. -/
def strStartsWith (s p : String) : Bool := p.data.isPrefixOf s.data

/-- Models Python `str.endswith`: suffix test on the character lists. -/
def strEndsWith (s p : String) : Bool := p.data.isSuffixOf s.data

/-- `SVGComponent.__init__`: a UI component extracted from the SVG.
`section` is a Lean keyword, so that attribute is embedded as `sectionLabel`. -/
structure SVGComponent where
  id : String
  type : String
  x : ℚ
  y : ℚ
  width : ℚ
  height : ℚ
  radius : ℚ
  label : String
  sectionLabel : String
deriving Repr, DecidableEq

/-- A `<circle>` element as `_parse_circle` reads it: the `id` attribute
via `element.get('id', '')` (so a missing id is `""`), and the numeric
attributes as optional values (`none` = attribute absent). -/
structure CircleElem where
  id : String
  cx : Option ℚ
  cy : Option ℚ
  r : Option ℚ
deriving Repr, DecidableEq

/-- A `<rect>` element as `_parse_rect` reads it. -/
structure RectElem where
  id : String
  x : Option ℚ
  y : Option ℚ
  width : Option ℚ
  height : Option ℚ
deriving Repr, DecidableEq

/-- A `<g>` element as `_assign_sections` reads it: its `inkscape:label`
attribute (`""` when absent) and the ids of all elements inside it
(what `group.iter()` visits). -/
structure SVGGroup where
  label : String
  memberIds : List String
deriving Repr, DecidableEq

/-- The drawing as the parser walks it: `root.iter` over all circles, then all
rects (document order), plus the groups used for section assignment. -/
structure SVGDoc where
  circles : List CircleElem
  rects : List RectElem
  groups : List SVGGroup
deriving Repr, DecidableEq

namespace SVGParser

/-- The skip filter of `_parse_circle`:
`if not element_id or element_id.startswith(('grain_particle', 'midi_dot', 'kbd_key'))`. -/
def circleSkip (element_id : String) : Bool :=
  element_id == "" || strStartsWith element_id "grain_particle"
    || strStartsWith element_id "midi_dot" || strStartsWith element_id "kbd_key"

/-- `_parse_circle`: skip decorative circles, default missing attributes to 0. -/
def parse_circle (element : CircleElem) : Option SVGComponent :=
  if circleSkip element.id then none
  else some ⟨element.id, "circle", element.cx.getD 0, element.cy.getD 0, 0, 0,
    element.r.getD 0, "", ""⟩

/-- `skip_ids = ['panel_background', 'header_bg', 'waveform_path']` in `_parse_rect`. -/
def skip_ids : List String := ["panel_background", "header_bg", "waveform_path"]

/-- The skip filter of `_parse_rect`:
`if not element_id or element_id.endswith('_border') or element_id in skip_ids`. -/
def rectSkip (element_id : String) : Bool :=
  element_id == "" || strEndsWith element_id "_border" || skip_ids.contains element_id

/-- `_parse_rect`: skip background/border rects, default missing attributes to 0. -/
def parse_rect (element : RectElem) : Option SVGComponent :=
  if rectSkip element.id then none
  else some ⟨element.id, "rect", element.x.getD 0, element.y.getD 0,
    element.width.getD 0, element.height.getD 0, 0, "", ""⟩

/-- One group of `_assign_sections`: groups without a label are skipped, and every
component whose id occurs inside the group gets the group's label as its section. -/
def applyGroup (components : List SVGComponent) (group : SVGGroup) : List SVGComponent :=
  if group.label == "" then components
  else components.map (fun comp =>
    if group.memberIds.contains comp.id then { comp with sectionLabel := group.label }
    else comp)

/-- `_assign_sections`: the groups are walked in document order, updating the
component list in place. -/
def assign_sections (groups : List SVGGroup) (components : List SVGComponent) :
    List SVGComponent :=
  groups.foldl applyGroup components

/-- `SVGParser.parse`: all circles, then all rects, then section assignment. -/
def parse (doc : SVGDoc) : List SVGComponent :=
  assign_sections doc.groups
    (doc.circles.filterMap parse_circle ++ doc.rects.filterMap parse_rect)

end SVGParser

/-- JSON values: the contents of the mapping configuration file. -/
inductive Json where
  | null
  | bool (b : Bool)
  | num (q : ℚ)
  | str (s : String)
  | arr (elems : List Json)
  | obj (entries : List (String × Json))
deriving Repr

/-- Key lookup in a JSON object's entry list; models Python dict lookup
(`d.get(k)` / `k in d`).  Objects written by `ComponentMapper.save` come from
Python dicts and therefore have distinct keys. -/
def jlookup : List (String × Json) → String → Option Json
  | [], _ => none
  | kv :: rest, key => if kv.1 == key then some kv.2 else jlookup rest key

/-- `j.get(key, default=None)` on a JSON value (the script only applies it to dicts). -/
def Json.get (j : Json) (key : String) : Option Json :=
  match j with
  | .obj entries => jlookup entries key
  | _ => none

/-- Python truthiness of a JSON value (`if not data: ...`). -/
def Json.isTruthy : Json → Bool
  | .null => false
  | .bool b => b
  | .num q => !(q == 0)
  | .str s => !(s == "")
  | .arr elems => !elems.isEmpty
  | .obj entries => !entries.isEmpty

/-- The entry list of a JSON object (`d.items()`); `[]` for non-objects. -/
def Json.objEntries : Json → List (String × Json)
  | .obj entries => entries
  | _ => []

/-- The in-memory state of a `ComponentMapper`: `self.config` and
`self.mapping` (the per-identifier component entries). -/
structure MapperState where
  config : Json
  mapping : Json
deriving Repr

namespace ComponentMapper

/-- `ComponentMapper.__init__`: `self.mapping = {}`, `self.config = {}`. -/
def initState : MapperState := ⟨Json.obj [], Json.obj []⟩

/-- `ComponentMapper.load`: the mapping file is modelled as `Option Json`
(`none` = `os.path.exists` is false, in which case the state keeps its
initial empty dicts).  `json.load` of the written text is modelled at the
JSON value level, where `json.dump`/`json.load` are inverse. -/
def load (mapping_file : Option Json) : MapperState :=
  match mapping_file with
  | none => initState
  | some data =>
    ⟨(data.get "config").getD (Json.obj []), (data.get "components").getD (Json.obj [])⟩

/-- `ComponentMapper.save`: the JSON value written to the mapping file,
`{'config': self.config, 'components': self.mapping}`. -/
def save (st : MapperState) : Json :=
  Json.obj [("config", st.config), ("components", st.mapping)]

/-- `ComponentMapper.get_component_info`: `self.mapping.get(svg_id)`. -/
def get_component_info (mapping : Json) (svg_id : String) : Option Json :=
  mapping.get svg_id

end ComponentMapper

/-- Python `int(round(v))` on an exact value: round half to even.  The
fractional-part comparison with one half is phrased multiplicatively
(`2*(q - floor q)` against `1`) to keep the definition division-free. -/
def pyRound (q : ℚ) : ℤ :=
  if 2 * (q - q.floor) < 1 then q.floor
  else if 1 < 2 * (q - q.floor) then q.floor + 1
  else if q.floor % 2 = 0 then q.floor else q.floor + 1

/-- `CoordinateConverter` state: the four declared canvas dimensions and the two
scale factors `self.scale_x`, `self.scale_y` computed in `__init__`. -/
structure CoordinateConverter where
  svg_width_mm : ℚ
  svg_height_mm : ℚ
  juce_width_px : ℤ
  juce_height_px : ℤ
  scale_x : ℚ
  scale_y : ℚ
deriving Repr, DecidableEq

namespace CoordinateConverter

/-- `CoordinateConverter.__init__`: the scale factors are derived here, once,
as `juce_width_px / svg_width_mm` and `juce_height_px / svg_height_mm`. -/
def init (svg_width_mm svg_height_mm : ℚ) (juce_width_px juce_height_px : ℤ) :
    CoordinateConverter :=
  ⟨svg_width_mm, svg_height_mm, juce_width_px, juce_height_px,
    (juce_width_px : ℚ) / svg_width_mm, (juce_height_px : ℚ) / svg_height_mm⟩

/-- The converter built from the default arguments `(225.0, 190.0, 850, 720)`,
as `SVGToJUCEConverter.__init__` does with `CoordinateConverter()`. -/
def defaultConverter : CoordinateConverter := init 225 190 850 720

/-- `CoordinateConverter.to_juce`: reads only the stored scale factors. -/
def to_juce (cc : CoordinateConverter) (x_mm y_mm : ℚ) : ℤ × ℤ :=
  (pyRound (x_mm * cc.scale_x), pyRound (y_mm * cc.scale_y))

/-- `CoordinateConverter.size_to_juce`: reads only the stored scale factors. -/
def size_to_juce (cc : CoordinateConverter) (width_mm height_mm : ℚ) : ℤ × ℤ :=
  (pyRound (width_mm * cc.scale_x), pyRound (height_mm * cc.scale_y))

end CoordinateConverter

/-- The list `['ModButton', 'Indicator', 'Unknown']` used by the overlap check. -/
def excluded_types : List String := ["ModButton", "Indicator", "Unknown"]

/-- `info.get('type') in ['ModButton', 'Indicator', 'Unknown']`: only a JSON
string member compares equal to one of these Python strings. -/
def typeExcluded (info : Json) : Bool :=
  match info.get "type" with
  | some (Json.str s) => excluded_types.contains s
  | _ => false

/-- `info.get('type') == 'Unknown'` in the unknown-type check. -/
def typeIsUnknown (info : Json) : Bool :=
  match info.get "type" with
  | some (Json.str s) => s == "Unknown"
  | _ => false

/-- The `continue` filter of the overlap check:
`if not info or info.get('type') in ['ModButton', 'Indicator', 'Unknown']`.
A component is skipped when unmapped (`info` is `None`), when its entry is
falsy (an empty dict), or when its type is excluded. -/
def overlapSkip (entries : List (String × Json)) (comp : SVGComponent) : Bool :=
  match jlookup entries comp.id with
  | none => true
  | some info => !info.isTruthy || typeExcluded info

/-- Models Python `abs` on an exact value. -/
def ratAbs (q : ℚ) : ℚ := if q < 0 then -q else q

/-- The pairwise test `distance = (dx**2 + dy**2)**0.5; distance < 2`:
for nonnegative `s`, `sqrt s < 2` iff `s < 4`, so the comparison is carried
out on the squared distance to stay inside `ℚ`. -/
def closePair (comp1 comp2 : SVGComponent) : Bool :=
  decide (ratAbs (comp1.x - comp2.x) * ratAbs (comp1.x - comp2.x)
    + ratAbs (comp1.y - comp2.y) * ratAbs (comp1.y - comp2.y) < 4)

/-- The nested overlap loop: `for i, comp1 in enumerate(components): ...
for comp2 in components[i+1:]`.  Each reported `(comp1.id, comp2.id, distance)`
triple is modelled as the id pair; the third slot, an irrational distance used
only for printing, is dropped. -/
def overlapPairs (entries : List (String × Json)) : List SVGComponent → List (String × String)
  | [] => []
  | comp1 :: rest =>
    (if overlapSkip entries comp1 then []
     else (rest.filter (fun comp2 => !overlapSkip entries comp2 && closePair comp1 comp2)).map
        (fun comp2 => (comp1.id, comp2.id)))
    ++ overlapPairs entries rest

/-- Everything `SVGToJUCEConverter.validate` reports, as data: the fatal
missing-mapping error and the four warning lists, in the order the code
computes them. -/
structure ValidateReport where
  error : Option String
  unmapped : List String
  unknownType : List String
  overlaps : List (String × String)
  outOfBounds : List String
deriving Repr, DecidableEq

/-- `"ERROR: No mapping configuration found. Run with --init first."` -/
def no_mapping_error : String :=
  "ERROR: No mapping configuration found. Run with --init first."

namespace SVGToJUCEConverter

/-- `SVGToJUCEConverter.validate`: load the mapping, abort when it is empty
(`if not self.mapper.mapping`), otherwise parse the SVG and compute the four
warning lists (unmapped ids, Unknown-typed entries, overlapping pairs, and
components outside the hardcoded 225x190 bounds). -/
def validate (mapping_file : Option Json) (doc : SVGDoc) : ValidateReport :=
  let st := ComponentMapper.load mapping_file
  if st.mapping.isTruthy = false then
    ⟨some no_mapping_error, [], [], [], []⟩
  else
    let components := SVGParser.parse doc
    let entries := st.mapping.objEntries
    ⟨none,
      components.filterMap (fun comp =>
        if (jlookup entries comp.id).isNone then some comp.id else none),
      entries.filterMap (fun kv => if typeIsUnknown kv.2 then some kv.1 else none),
      overlapPairs entries components,
      components.filterMap (fun comp =>
        if comp.x < 0 ∨ 225 < comp.x ∨ comp.y < 0 ∨ 190 < comp.y then some comp.id else none)⟩

/-- The outcome of `SVGToJUCEConverter.generate_code`. -/
inductive GenResult where
  | error (msg : String)
  | previewed
  | written (files : List String)
deriving Repr, DecidableEq

/-- The output files a `generate_code` run wrote. -/
def GenResult.filesWritten : GenResult → List String
  | .written files => files
  | _ => []

/-- The three fixed output file names of `generate_code`. -/
def output_files : List String :=
  ["header_snippet.hpp", "constructor_snippet.cpp", "resized_snippet.cpp"]

/-- `SVGToJUCEConverter.generate_code`: load the mapping, abort when it is
empty, otherwise parse and either preview (`dry_run`) or write the three
snippet files.  The snippet text itself (pure string templating in
`CodeGenerator`) enters no claimed property; the embedding keeps the control
flow and which output files get written. -/
def generate_code (mapping_file : Option Json) (doc : SVGDoc) (dry_run : Bool) : GenResult :=
  let st := ComponentMapper.load mapping_file
  if st.mapping.isTruthy = false then .error no_mapping_error
  else
    let _components := SVGParser.parse doc
    if dry_run then .previewed
    else .written output_files

end SVGToJUCEConverter

/-- The mutually exclusive command-line flags of `main`. -/
structure CLIArgs where
  init : Bool
  dry_run : Bool
  validate : Bool
deriving Repr, DecidableEq

/-- What a `main` run did. -/
inductive MainResult where
  | exited (code : Nat)
  | ranInit
  | ranValidate (report : ValidateReport)
  | ranGenerate (result : SVGToJUCEConverter.GenResult)
deriving Repr, DecidableEq

namespace SvgToJuce

/-- `main`: `svg_exists` models `svg_path.exists()`; a missing drawing exits
with code 1 before any mode is dispatched.  `init_mapping`'s effect enters no
claimed property and is recorded as `ranInit`. -/
def main (svg_exists : Bool) (args : CLIArgs) (mapping_file : Option Json) (doc : SVGDoc) :
    MainResult :=
  if svg_exists = false then .exited 1
  else if args.init then .ranInit
  else if args.validate then .ranValidate (SVGToJUCEConverter.validate mapping_file doc)
  else if args.dry_run then .ranGenerate (SVGToJUCEConverter.generate_code mapping_file doc true)
  else .ranGenerate (SVGToJUCEConverter.generate_code mapping_file doc false)

end SvgToJuce

/-! ## Helper lemmas -/

theorem rat_floor_eq_intFloor (q : ℚ) : Rat.floor q = ⌊q⌋ := by
  rw [Rat.floor_def', Rat.floor_def]

theorem pyRound_near (q : ℚ) : |(pyRound q : ℚ) - q| ≤ 1/2 := by
  have h0 : ((⌊q⌋ : ℤ) : ℚ) ≤ q := Int.floor_le q
  have h1 : q < (⌊q⌋ : ℚ) + 1 := Int.lt_floor_add_one q
  unfold pyRound
  rw [rat_floor_eq_intFloor]
  split
  · next h => rw [abs_le]; constructor <;> linarith
  · next h =>
    push_neg at h
    split
    · next h2 => rw [abs_le]; push_cast; constructor <;> linarith
    · next h2 =>
      push_neg at h2
      split
      · rw [abs_le]; constructor <;> linarith
      · rw [abs_le]; push_cast; constructor <;> linarith

theorem ratAbs_mul_self (q : ℚ) : ratAbs q * ratAbs q = q * q := by
  unfold ratAbs
  split
  · ring
  · ring

theorem closePair_eq_true_iff (comp1 comp2 : SVGComponent) :
    closePair comp1 comp2 = true ↔
      (comp1.x - comp2.x) * (comp1.x - comp2.x)
        + (comp1.y - comp2.y) * (comp1.y - comp2.y) < 4 := by
  unfold closePair
  rw [decide_eq_true_iff, ratAbs_mul_self, ratAbs_mul_self]

theorem jlookup_isSome_of_mem {entries : List (String × Json)} {kv : String × Json}
    (h : kv ∈ entries) : (jlookup entries kv.1).isSome = true := by
  induction entries with
  | nil => cases h
  | cons hd tl ih =>
    rw [jlookup]
    rcases List.mem_cons.mp h with rfl | hmem
    · simp
    · split
      · simp
      · exact ih hmem

/-- Everything of a component except its section label, the only field
`_assign_sections` mutates. -/
def SVGComponent.core (comp : SVGComponent) :
    String × String × ℚ × ℚ × ℚ × ℚ × ℚ × String :=
  (comp.id, comp.type, comp.x, comp.y, comp.width, comp.height, comp.radius, comp.label)

theorem applyGroup_map_of {α : Type} (f : SVGComponent → α)
    (hf : ∀ comp s, f { comp with sectionLabel := s } = f comp)
    (components : List SVGComponent) (group : SVGGroup) :
    (SVGParser.applyGroup components group).map f = components.map f := by
  unfold SVGParser.applyGroup
  split
  · rfl
  · rw [List.map_map]
    apply List.map_congr_left
    intro comp _
    simp only [Function.comp_apply]
    split
    · exact hf comp group.label
    · rfl

theorem assign_sections_map_of {α : Type} (f : SVGComponent → α)
    (hf : ∀ comp s, f { comp with sectionLabel := s } = f comp)
    (groups : List SVGGroup) (components : List SVGComponent) :
    (SVGParser.assign_sections groups components).map f = components.map f := by
  induction groups generalizing components with
  | nil => rfl
  | cons g rest ih =>
    have h1 : SVGParser.assign_sections (g :: rest) components
        = SVGParser.assign_sections rest (SVGParser.applyGroup components g) := rfl
    rw [h1, ih, applyGroup_map_of f hf]

theorem assign_sections_map_core (groups : List SVGGroup) (components : List SVGComponent) :
    (SVGParser.assign_sections groups components).map SVGComponent.core
      = components.map SVGComponent.core :=
  assign_sections_map_of SVGComponent.core (fun _ _ => rfl) groups components

theorem assign_sections_map_id (groups : List SVGGroup) (components : List SVGComponent) :
    (SVGParser.assign_sections groups components).map SVGComponent.id
      = components.map SVGComponent.id :=
  assign_sections_map_of SVGComponent.id (fun _ _ => rfl) groups components

theorem mem_assign_sections_core {groups : List SVGGroup} {components : List SVGComponent}
    {comp : SVGComponent} (h : comp ∈ SVGParser.assign_sections groups components) :
    ∃ comp0 ∈ components, SVGComponent.core comp0 = SVGComponent.core comp := by
  have h1 : SVGComponent.core comp ∈
      (SVGParser.assign_sections groups components).map SVGComponent.core :=
    List.mem_map_of_mem SVGComponent.core h
  rw [assign_sections_map_core] at h1
  exact List.mem_map.mp h1

theorem mem_assign_sections_of_mem {groups : List SVGGroup} {components : List SVGComponent}
    {comp0 : SVGComponent} (h : comp0 ∈ components) :
    ∃ comp ∈ SVGParser.assign_sections groups components,
      SVGComponent.core comp = SVGComponent.core comp0 := by
  have h1 : SVGComponent.core comp0 ∈ components.map SVGComponent.core :=
    List.mem_map_of_mem SVGComponent.core h
  rw [← assign_sections_map_core groups components] at h1
  exact List.mem_map.mp h1

theorem parse_circle_eq_some {element : CircleElem} {comp : SVGComponent}
    (h : SVGParser.parse_circle element = some comp) :
    SVGParser.circleSkip element.id = false
    ∧ comp = ⟨element.id, "circle", element.cx.getD 0, element.cy.getD 0, 0, 0,
        element.r.getD 0, "", ""⟩ := by
  unfold SVGParser.parse_circle at h
  split at h
  · exact absurd h (by simp)
  · next hskip =>
    exact ⟨Bool.eq_false_iff.mpr hskip, (Option.some.injEq _ _ ▸ h).symm⟩

theorem parse_rect_eq_some {element : RectElem} {comp : SVGComponent}
    (h : SVGParser.parse_rect element = some comp) :
    SVGParser.rectSkip element.id = false
    ∧ comp = ⟨element.id, "rect", element.x.getD 0, element.y.getD 0,
        element.width.getD 0, element.height.getD 0, 0, "", ""⟩ := by
  unfold SVGParser.parse_rect at h
  split at h
  · exact absurd h (by simp)
  · next hskip =>
    exact ⟨Bool.eq_false_iff.mpr hskip, (Option.some.injEq _ _ ▸ h).symm⟩

theorem filterMap_parse_circle_ids (elements : List CircleElem) :
    ((elements.filterMap SVGParser.parse_circle).map SVGComponent.id).Sublist
      (elements.map CircleElem.id) := by
  induction elements with
  | nil => simp
  | cons e rest ih =>
    rw [List.filterMap_cons]
    cases hpc : SVGParser.parse_circle e with
    | none => exact ih.cons e.id
    | some comp =>
      rw [List.map_cons, List.map_cons]
      have hid : comp.id = e.id := by rw [(parse_circle_eq_some hpc).2]
      rw [hid]
      exact ih.cons₂ e.id

theorem filterMap_parse_rect_ids (elements : List RectElem) :
    ((elements.filterMap SVGParser.parse_rect).map SVGComponent.id).Sublist
      (elements.map RectElem.id) := by
  induction elements with
  | nil => simp
  | cons e rest ih =>
    rw [List.filterMap_cons]
    cases hpr : SVGParser.parse_rect e with
    | none => exact ih.cons e.id
    | some comp =>
      rw [List.map_cons, List.map_cons]
      have hid : comp.id = e.id := by rw [(parse_rect_eq_some hpr).2]
      rw [hid]
      exact ih.cons₂ e.id

/-! ## Claim theorems -/

/-- Claim C4: saving an in-memory mapping store (config plus per-identifier
component entries) to the mapping file and loading it back yields an identical
in-memory mapping. -/
theorem mapper_save_load_roundtrip (st : MapperState) :
    ComponentMapper.load (some (ComponentMapper.save st)) = st := rfl

/-- Claim C7: when the mapping file is missing, generation and validation
report the condition (`no_mapping_error`), abort, and write no output file. -/
theorem missing_mapping_file_aborts (doc : SVGDoc) (dry_run : Bool) :
    SVGToJUCEConverter.generate_code none doc dry_run
      = SVGToJUCEConverter.GenResult.error no_mapping_error
    ∧ (SVGToJUCEConverter.generate_code none doc dry_run).filesWritten = []
    ∧ SVGToJUCEConverter.validate none doc = ⟨some no_mapping_error, [], [], [], []⟩ :=
  ⟨rfl, rfl, rfl⟩

/-- Claim C8: when the source drawing file is missing, the program exits with
code 1 before dispatching any mode's work. -/
theorem missing_svg_exits_nonzero (args : CLIArgs) (mapping_file : Option Json) (doc : SVGDoc) :
    SvgToJuce.main false args mapping_file doc = MainResult.exited 1 := rfl

/-- Claim C2 (amended): after a parse pass, the shape identifiers in the
returned list are unique, provided the drawing's element identifiers are
themselves pairwise distinct.  (The parser performs no deduplication of its
own, so uniqueness is inherited from the document, not enforced.) -/
theorem parse_ids_nodup (doc : SVGDoc)
    (h : (doc.circles.map CircleElem.id ++ doc.rects.map RectElem.id).Nodup) :
    ((SVGParser.parse doc).map SVGComponent.id).Nodup := by
  unfold SVGParser.parse
  rw [assign_sections_map_id, List.map_append]
  exact ((filterMap_parse_circle_ids doc.circles).append
    (filterMap_parse_rect_ids doc.rects)).nodup h

/-- The drawing used to refute claim C2 as stated: two circles share the id
`knob_a`, and both survive parsing. -/
def c2Doc : SVGDoc :=
  ⟨[⟨"knob_a", some 10, some 10, some 5⟩, ⟨"knob_a", some 50, some 50, some 5⟩], [], []⟩

/-- Claim C2 counterexample: a drawing with two circles sharing the id
`knob_a` parses to a list whose identifiers are not unique. -/
theorem parse_duplicate_ids_cex :
    (SVGParser.parse c2Doc).map SVGComponent.id = ["knob_a", "knob_a"]
    ∧ ¬ ((SVGParser.parse c2Doc).map SVGComponent.id).Nodup := by
  refine ⟨rfl, ?_⟩
  have h1 : (SVGParser.parse c2Doc).map SVGComponent.id = ["knob_a", "knob_a"] := rfl
  rw [h1]
  decide

/-- Drawing for the C2 witness: one circle and one rect with distinct ids. -/
def c2WitnessDoc : SVGDoc :=
  ⟨[⟨"knob_mix", some 10, some 10, some 5⟩], [⟨"lfo_display", some 20, some 20, some 30, some 10⟩], []⟩

/-- Witness for C2 at a concrete drawing with distinct element ids. -/
theorem parse_ids_nodup_witness :
    (c2WitnessDoc.circles.map CircleElem.id ++ c2WitnessDoc.rects.map RectElem.id).Nodup
    ∧ ((SVGParser.parse c2WitnessDoc).map SVGComponent.id).Nodup :=
  ⟨by decide, parse_ids_nodup c2WitnessDoc (by decide)⟩

/-- The decorative prefixes of claim C6, as a single test. -/
def decorativePrefix (element_id : String) : Bool :=
  strStartsWith element_id "grain_particle" || strStartsWith element_id "midi_dot"
    || strStartsWith element_id "kbd_key"

/-- Claim C6 (amended): no parsed shape of kind `circle` carries an identifier
matching a decorative prefix (`grain_particle`, `midi_dot`, `kbd_key`),
regardless of position.  (Rectangles are filtered by their own skip list —
`_border` suffix, `panel_background`, `header_bg`, `waveform_path` — and the
decorative prefixes do not apply to them.) -/
theorem parse_no_decorative_circles (doc : SVGDoc) (comp : SVGComponent)
    (hmem : comp ∈ SVGParser.parse doc) (htype : comp.type = "circle") :
    decorativePrefix comp.id = false := by
  unfold SVGParser.parse at hmem
  obtain ⟨comp0, hmem0, hcore⟩ := mem_assign_sections_core hmem
  simp only [SVGComponent.core, Prod.mk.injEq] at hcore
  rcases List.mem_append.mp hmem0 with h | h
  · obtain ⟨e, _, hpc⟩ := List.mem_filterMap.mp h
    obtain ⟨hskip, heq⟩ := parse_circle_eq_some hpc
    have hid : comp.id = e.id := by rw [← hcore.1, heq]
    rw [hid]
    simp only [SVGParser.circleSkip, Bool.or_eq_false_iff] at hskip
    simp [decorativePrefix, hskip.1.1.2, hskip.1.2, hskip.2]
  · obtain ⟨e, _, hpr⟩ := List.mem_filterMap.mp h
    obtain ⟨_, heq⟩ := parse_rect_eq_some hpr
    have htype0 : comp.type = "rect" := by rw [← hcore.2.1, heq]
    rw [htype] at htype0
    exact absurd htype0 (by decide)

/-- The drawing used to refute claim C6 as stated: a rectangle whose id
starts with the decorative prefix `midi_dot`. -/
def c6Doc : SVGDoc := ⟨[], [⟨"midi_dot_7", some 5, some 6, some 2, some 2⟩], []⟩

/-- Claim C6 counterexample: a rect with the decorative-prefixed id
`midi_dot_7` appears in the parsed shape list. -/
theorem parse_decorative_rect_cex :
    (SVGParser.parse c6Doc).map (fun comp => (comp.id, comp.type)) = [("midi_dot_7", "rect")]
    ∧ decorativePrefix "midi_dot_7" = true :=
  ⟨rfl, by decide⟩

/-- Drawing for the C6 witness: a single ordinary knob circle. -/
def c6WitnessDoc : SVGDoc := ⟨[⟨"knob_mix", some 10, some 20, some 5⟩], [], []⟩

/-- Witness for C6 at a concrete parsed circle. -/
theorem parse_no_decorative_circles_witness :
    (⟨"knob_mix", "circle", 10, 20, 0, 0, 5, "", ""⟩ : SVGComponent) ∈ SVGParser.parse c6WitnessDoc
    ∧ decorativePrefix "knob_mix" = false :=
  ⟨by decide,
    parse_no_decorative_circles c6WitnessDoc ⟨"knob_mix", "circle", 10, 20, 0, 0, 5, "", ""⟩
      (by decide) rfl⟩

/-- Claim C10: a circle or rect element with a non-skipped identifier but
missing position/size attributes still parses — each missing coordinate,
radius, width or height defaults to 0, and the record appears in the parsed
list at position (0, 0) with zero size. -/
theorem missing_attributes_default_zero :
    (∀ (doc : SVGDoc) (element : CircleElem), element ∈ doc.circles →
      SVGParser.circleSkip element.id = false →
      element.cx = none → element.cy = none → element.r = none →
      ∃ comp ∈ SVGParser.parse doc, comp.id = element.id ∧ comp.type = "circle"
        ∧ comp.x = 0 ∧ comp.y = 0 ∧ comp.radius = 0 ∧ comp.width = 0 ∧ comp.height = 0)
    ∧ (∀ (doc : SVGDoc) (element : RectElem), element ∈ doc.rects →
      SVGParser.rectSkip element.id = false →
      element.x = none → element.y = none → element.width = none → element.height = none →
      ∃ comp ∈ SVGParser.parse doc, comp.id = element.id ∧ comp.type = "rect"
        ∧ comp.x = 0 ∧ comp.y = 0 ∧ comp.width = 0 ∧ comp.height = 0 ∧ comp.radius = 0) := by
  constructor
  · intro doc element hmem hskip hcx hcy hr
    have hpc : SVGParser.parse_circle element
        = some ⟨element.id, "circle", 0, 0, 0, 0, 0, "", ""⟩ := by
      unfold SVGParser.parse_circle
      rw [hskip, hcx, hcy, hr]
      rfl
    have h0 : (⟨element.id, "circle", 0, 0, 0, 0, 0, "", ""⟩ : SVGComponent)
        ∈ doc.circles.filterMap SVGParser.parse_circle ++ doc.rects.filterMap SVGParser.parse_rect :=
      List.mem_append_left _ (List.mem_filterMap.mpr ⟨element, hmem, hpc⟩)
    obtain ⟨comp, hc, hcore⟩ := mem_assign_sections_of_mem h0
    simp only [SVGComponent.core, Prod.mk.injEq] at hcore
    exact ⟨comp, hc, hcore.1, hcore.2.1, hcore.2.2.1, hcore.2.2.2.1,
      hcore.2.2.2.2.2.2.1, hcore.2.2.2.2.1, hcore.2.2.2.2.2.1⟩
  · intro doc element hmem hskip hx hy hw hh
    have hpr : SVGParser.parse_rect element
        = some ⟨element.id, "rect", 0, 0, 0, 0, 0, "", ""⟩ := by
      unfold SVGParser.parse_rect
      rw [hskip, hx, hy, hw, hh]
      rfl
    have h0 : (⟨element.id, "rect", 0, 0, 0, 0, 0, "", ""⟩ : SVGComponent)
        ∈ doc.circles.filterMap SVGParser.parse_circle ++ doc.rects.filterMap SVGParser.parse_rect :=
      List.mem_append_right _ (List.mem_filterMap.mpr ⟨element, hmem, hpr⟩)
    obtain ⟨comp, hc, hcore⟩ := mem_assign_sections_of_mem h0
    simp only [SVGComponent.core, Prod.mk.injEq] at hcore
    exact ⟨comp, hc, hcore.1, hcore.2.1, hcore.2.2.1, hcore.2.2.2.1,
      hcore.2.2.2.2.1, hcore.2.2.2.2.2.1, hcore.2.2.2.2.2.2.1⟩

/-- Drawing for the C10 witness: one circle and one rect, both bare of
position and size attributes. -/
def c10Doc : SVGDoc := ⟨[⟨"knob_bare", none, none, none⟩], [⟨"lfo_display", none, none, none, none⟩], []⟩

/-- Witness for C10 at a concrete attribute-less circle and rect. -/
theorem missing_attributes_default_zero_witness :
    (SVGParser.circleSkip "knob_bare" = false ∧ SVGParser.rectSkip "lfo_display" = false)
    ∧ (∃ comp ∈ SVGParser.parse c10Doc, comp.id = "knob_bare" ∧ comp.type = "circle"
        ∧ comp.x = 0 ∧ comp.y = 0 ∧ comp.radius = 0 ∧ comp.width = 0 ∧ comp.height = 0)
    ∧ (∃ comp ∈ SVGParser.parse c10Doc, comp.id = "lfo_display" ∧ comp.type = "rect"
        ∧ comp.x = 0 ∧ comp.y = 0 ∧ comp.width = 0 ∧ comp.height = 0 ∧ comp.radius = 0) :=
  ⟨⟨by decide, by decide⟩,
    missing_attributes_default_zero.1 c10Doc ⟨"knob_bare", none, none, none⟩
      (by decide) (by decide) rfl rfl rfl,
    missing_attributes_default_zero.2 c10Doc ⟨"lfo_display", none, none, none, none⟩
      (by decide) (by decide) rfl rfl rfl rfl⟩

/-- Claim C5: with identity scale configuration (pixel canvas size equal to
physical canvas size on both axes), `to_juce` returns the position unchanged
up to rounding to the nearest integer (the Python round, ties to even, lands
within one half of the exact value). -/
theorem to_juce_identity_scale (w h : ℚ) (jw jh : ℤ) (x y : ℚ)
    (hw : w ≠ 0) (hh : h ≠ 0) (hjw : (jw : ℚ) = w) (hjh : (jh : ℚ) = h) :
    (CoordinateConverter.init w h jw jh).to_juce x y = (pyRound x, pyRound y)
    ∧ |(pyRound x : ℚ) - x| ≤ 1/2 ∧ |(pyRound y : ℚ) - y| ≤ 1/2 := by
  refine ⟨?_, pyRound_near x, pyRound_near y⟩
  unfold CoordinateConverter.to_juce CoordinateConverter.init
  simp only [hjw, hjh, div_self hw, div_self hh, mul_one]

/-- Witness for C5 at the identity configuration 850x720 mm = 850x720 px. -/
theorem to_juce_identity_scale_witness :
    ((850 : ℚ) ≠ 0 ∧ (720 : ℚ) ≠ 0 ∧ (((850 : ℤ) : ℚ)) = 850 ∧ (((720 : ℤ) : ℚ)) = 720)
    ∧ (CoordinateConverter.init 850 720 850 720).to_juce 7 12 = (pyRound 7, pyRound 12) :=
  ⟨⟨by decide, by decide, by decide, by decide⟩,
    (to_juce_identity_scale 850 720 850 720 7 12 (by decide) (by decide)
      (by decide) (by decide)).1⟩

/-- Claim C9: for positive declared canvas dimensions, both scale factors of a
constructed converter are strictly positive; they are derived once, in the
constructor (they equal `juce_width_px / svg_width_mm` and
`juce_height_px / svg_height_mm`), and both conversion functions read only
those stored factors. -/
theorem scale_factors_positive_once (w h : ℚ) (jw jh : ℤ)
    (hw : 0 < w) (hh : 0 < h) (hjw : 0 < jw) (hjh : 0 < jh) :
    0 < (CoordinateConverter.init w h jw jh).scale_x
    ∧ 0 < (CoordinateConverter.init w h jw jh).scale_y
    ∧ (CoordinateConverter.init w h jw jh).scale_x = (jw : ℚ) / w
    ∧ (CoordinateConverter.init w h jw jh).scale_y = (jh : ℚ) / h
    ∧ (∀ x y : ℚ, (CoordinateConverter.init w h jw jh).to_juce x y
        = (pyRound (x * ((jw : ℚ) / w)), pyRound (y * ((jh : ℚ) / h))))
    ∧ (∀ wd ht : ℚ, (CoordinateConverter.init w h jw jh).size_to_juce wd ht
        = (pyRound (wd * ((jw : ℚ) / w)), pyRound (ht * ((jh : ℚ) / h)))) := by
  have hjw2 : (0 : ℚ) < (jw : ℚ) := by exact_mod_cast hjw
  have hjh2 : (0 : ℚ) < (jh : ℚ) := by exact_mod_cast hjh
  exact ⟨div_pos hjw2 hw, div_pos hjh2 hh, rfl, rfl, fun _ _ => rfl, fun _ _ => rfl⟩

/-- Witness for C9 at the default constructor arguments (225, 190, 850, 720). -/
theorem scale_factors_positive_once_witness :
    ((0 : ℚ) < 225 ∧ (0 : ℚ) < 190 ∧ (0 : ℤ) < 850 ∧ (0 : ℤ) < 720)
    ∧ 0 < CoordinateConverter.defaultConverter.scale_x
    ∧ 0 < CoordinateConverter.defaultConverter.scale_y :=
  ⟨⟨by decide, by decide, by decide, by decide⟩,
    (scale_factors_positive_once 225 190 850 720 (by decide) (by decide)
      (by decide) (by decide)).1,
    (scale_factors_positive_once 225 190 850 720 (by decide) (by decide)
      (by decide) (by decide)).2.1⟩

theorem validate_loaded (mapping_file : Option Json) (cfg : Json)
    (entries : List (String × Json)) (doc : SVGDoc)
    (hload : ComponentMapper.load mapping_file = ⟨cfg, Json.obj entries⟩)
    (hne : entries ≠ []) :
    SVGToJUCEConverter.validate mapping_file doc =
      ⟨none,
        (SVGParser.parse doc).filterMap (fun comp =>
          if (jlookup entries comp.id).isNone then some comp.id else none),
        entries.filterMap (fun kv => if typeIsUnknown kv.2 then some kv.1 else none),
        overlapPairs entries (SVGParser.parse doc),
        (SVGParser.parse doc).filterMap (fun comp =>
          if comp.x < 0 ∨ 225 < comp.x ∨ comp.y < 0 ∨ 190 < comp.y then some comp.id else none)⟩ := by
  have htr : (Json.obj entries).isTruthy = true := by
    unfold Json.isTruthy
    simp [hne]
  unfold SVGToJUCEConverter.validate
  rw [hload]
  simp only [htr, Json.objEntries, Bool.true_eq_false, if_false]

theorem overlapPairs_mem_of {entries : List (String × Json)} {l : List SVGComponent}
    {comp1 comp2 : SVGComponent} (hsub : List.Sublist [comp1, comp2] l)
    (h1 : overlapSkip entries comp1 = false) (h2 : overlapSkip entries comp2 = false)
    (hclose : closePair comp1 comp2 = true) :
    (comp1.id, comp2.id) ∈ overlapPairs entries l := by
  induction l with
  | nil => cases hsub
  | cons a rest ih =>
    rw [overlapPairs]
    cases hsub with
    | cons _ htail => exact List.mem_append_right _ (ih htail)
    | cons₂ _ htail =>
      apply List.mem_append_left
      rw [h1]
      simp only [Bool.false_eq_true, if_false]
      refine List.mem_map.mpr ⟨comp2, List.mem_filter.mpr ⟨List.singleton_sublist.mp htail, ?_⟩, rfl⟩
      rw [h2, hclose]
      rfl

theorem overlapPairs_mem_elim {entries : List (String × Json)} {l : List SVGComponent}
    {a b : String} (hmem : (a, b) ∈ overlapPairs entries l) :
    ∃ comp1 comp2, List.Sublist [comp1, comp2] l ∧ comp1.id = a ∧ comp2.id = b
      ∧ overlapSkip entries comp1 = false ∧ overlapSkip entries comp2 = false
      ∧ closePair comp1 comp2 = true := by
  induction l with
  | nil => simp [overlapPairs] at hmem
  | cons c rest ih =>
    rw [overlapPairs] at hmem
    rcases List.mem_append.mp hmem with h | h
    · by_cases hs : overlapSkip entries c = true
      · rw [if_pos hs] at h
        cases h
      · rw [if_neg hs] at h
        obtain ⟨comp2, hcm, heq⟩ := List.mem_map.mp h
        obtain ⟨hmem2, hcond⟩ := List.mem_filter.mp hcm
        rw [Bool.and_eq_true, Bool.not_eq_true'] at hcond
        cases heq
        exact ⟨c, comp2, List.Sublist.cons₂ c (List.singleton_sublist.mpr hmem2),
          rfl, rfl, Bool.eq_false_iff.mpr hs, hcond.1, hcond.2⟩
    · obtain ⟨comp1, comp2, hsub, hr⟩ := ih h
      exact ⟨comp1, comp2, hsub.cons c, hr⟩

/-- Claim C3: validation reports as unmapped exactly the identifiers that
appear in the parsed shape list but have no entry in the loaded mapping, and
no identifier that has a mapping entry is flagged. -/
theorem validate_unmapped_exact (mapping_file : Option Json) (cfg : Json)
    (entries : List (String × Json)) (doc : SVGDoc)
    (hload : ComponentMapper.load mapping_file = ⟨cfg, Json.obj entries⟩)
    (hne : entries ≠ []) :
    (∀ i : String, i ∈ (SVGToJUCEConverter.validate mapping_file doc).unmapped
      ↔ ((∃ comp ∈ SVGParser.parse doc, comp.id = i) ∧ jlookup entries i = none))
    ∧ (∀ kv ∈ entries, kv.1 ∉ (SVGToJUCEConverter.validate mapping_file doc).unmapped) := by
  rw [validate_loaded mapping_file cfg entries doc hload hne]
  dsimp only
  constructor
  · intro i
    rw [List.mem_filterMap]
    constructor
    · rintro ⟨comp, hmem, hif⟩
      by_cases hni : (jlookup entries comp.id).isNone = true
      · rw [if_pos hni, Option.some.injEq] at hif
        rw [← hif]
        exact ⟨⟨comp, hmem, rfl⟩, Option.isNone_iff_eq_none.mp hni⟩
      · rw [if_neg hni] at hif
        cases hif
    · rintro ⟨⟨comp, hmem, hid⟩, hlook⟩
      refine ⟨comp, hmem, ?_⟩
      rw [hid, hlook]
      rfl
  · intro kv hkv hmem
    rw [List.mem_filterMap] at hmem
    obtain ⟨comp, _, hif⟩ := hmem
    by_cases hni : (jlookup entries comp.id).isNone = true
    · rw [if_pos hni, Option.some.injEq] at hif
      rw [hif] at hni
      have hsome := jlookup_isSome_of_mem hkv
      rw [Option.isNone_iff_eq_none.mp hni] at hsome
      cases hsome
    · rw [if_neg hni] at hif
      cases hif

/-- Drawing for the C3 witness: `knob_a` is mapped, `knob_b` is not. -/
def c3Doc : SVGDoc :=
  ⟨[⟨"knob_a", some 10, some 20, some 5⟩, ⟨"knob_b", some 60, some 20, some 5⟩], [], []⟩

/-- Mapping entries for the C3 witness. -/
def c3Entries : List (String × Json) :=
  [("knob_a", Json.obj [("type", Json.str "OccultKnob")])]

/-- Mapping file for the C3 witness. -/
def c3File : Json :=
  Json.obj [("config", Json.obj []), ("components", Json.obj c3Entries)]

/-- Witness for C3: the unmapped id `knob_b` is characterised, and the mapped
id `knob_a` is not flagged. -/
theorem validate_unmapped_exact_witness :
    (ComponentMapper.load (some c3File) = ⟨Json.obj [], Json.obj c3Entries⟩
      ∧ c3Entries ≠ [])
    ∧ ("knob_b" ∈ (SVGToJUCEConverter.validate (some c3File) c3Doc).unmapped
      ↔ ((∃ comp ∈ SVGParser.parse c3Doc, comp.id = "knob_b")
        ∧ jlookup c3Entries "knob_b" = none))
    ∧ "knob_a" ∉ (SVGToJUCEConverter.validate (some c3File) c3Doc).unmapped :=
  ⟨⟨rfl, List.cons_ne_nil _ _⟩,
    (validate_unmapped_exact (some c3File) (Json.obj []) c3Entries c3Doc rfl
      (List.cons_ne_nil _ _)).1 "knob_b",
    (validate_unmapped_exact (some c3File) (Json.obj []) c3Entries c3Doc rfl
      (List.cons_ne_nil _ _)).2 ("knob_a", Json.obj [("type", Json.str "OccultKnob")])
      (List.mem_singleton.mpr rfl)⟩

/-- Claim C1 (amended): among parsed shapes that are mapped to a non-empty
entry whose type is not `ModButton`/`Indicator`/`Unknown` (the pairs the
overlap loop examines), a pair with exactly coinciding positions is reported
as overlapping; and — with the parsed identifiers unique, which is the spec's
own invariant — a pair more than the 2 mm threshold apart (squared distance
above 4) is not reported, in either order.  The claim as literally stated
fails on the code: the loop skips unmapped shapes, so a coinciding pair
involving an unmapped shape goes unreported. -/
theorem validate_overlap_coincide_and_far (mapping_file : Option Json) (cfg : Json)
    (entries : List (String × Json)) (doc : SVGDoc)
    (hload : ComponentMapper.load mapping_file = ⟨cfg, Json.obj entries⟩)
    (hne : entries ≠ [])
    (comp1 comp2 : SVGComponent)
    (hsub : List.Sublist [comp1, comp2] (SVGParser.parse doc))
    (hnd : ((SVGParser.parse doc).map SVGComponent.id).Nodup)
    (h1 : overlapSkip entries comp1 = false) (h2 : overlapSkip entries comp2 = false) :
    (comp1.x = comp2.x ∧ comp1.y = comp2.y →
      (comp1.id, comp2.id) ∈ (SVGToJUCEConverter.validate mapping_file doc).overlaps)
    ∧ (4 < (comp1.x - comp2.x) * (comp1.x - comp2.x)
          + (comp1.y - comp2.y) * (comp1.y - comp2.y) →
      (comp1.id, comp2.id) ∉ (SVGToJUCEConverter.validate mapping_file doc).overlaps
      ∧ (comp2.id, comp1.id) ∉ (SVGToJUCEConverter.validate mapping_file doc).overlaps) := by
  rw [validate_loaded mapping_file cfg entries doc hload hne]
  dsimp only
  have hmem1 : comp1 ∈ SVGParser.parse doc := hsub.subset (by simp)
  have hmem2 : comp2 ∈ SVGParser.parse doc := hsub.subset (by simp)
  constructor
  · rintro ⟨hx, hy⟩
    have hclose : closePair comp1 comp2 = true := by
      rw [closePair_eq_true_iff, hx, hy]
      norm_num
    exact overlapPairs_mem_of hsub h1 h2 hclose
  · intro hfar
    constructor
    · intro hmem
      obtain ⟨d1, d2, hsubd, hid1, hid2, _, _, hclose⟩ := overlapPairs_mem_elim hmem
      have hd1 : d1 ∈ SVGParser.parse doc := hsubd.subset (by simp)
      have hd2 : d2 ∈ SVGParser.parse doc := hsubd.subset (by simp)
      have e1 : d1 = comp1 := List.inj_on_of_nodup_map hnd hd1 hmem1 (by rw [hid1])
      have e2 : d2 = comp2 := List.inj_on_of_nodup_map hnd hd2 hmem2 (by rw [hid2])
      rw [e1, e2, closePair_eq_true_iff] at hclose
      linarith
    · intro hmem
      obtain ⟨d1, d2, hsubd, hid1, hid2, _, _, hclose⟩ := overlapPairs_mem_elim hmem
      have hd1 : d1 ∈ SVGParser.parse doc := hsubd.subset (by simp)
      have hd2 : d2 ∈ SVGParser.parse doc := hsubd.subset (by simp)
      have e1 : d1 = comp2 := List.inj_on_of_nodup_map hnd hd1 hmem2 (by rw [hid1])
      have e2 : d2 = comp1 := List.inj_on_of_nodup_map hnd hd2 hmem1 (by rw [hid2])
      rw [e1, e2, closePair_eq_true_iff] at hclose
      have hswapx : (comp2.x - comp1.x) * (comp2.x - comp1.x)
          = (comp1.x - comp2.x) * (comp1.x - comp2.x) := by ring
      have hswapy : (comp2.y - comp1.y) * (comp2.y - comp1.y)
          = (comp1.y - comp2.y) * (comp1.y - comp2.y) := by ring
      rw [hswapx, hswapy] at hclose
      linarith

/-- The drawing used to refute claim C1 as stated: two circles at the same
position, the second unmapped. -/
def c1Doc : SVGDoc :=
  ⟨[⟨"knob_a", some 10, some 20, some 5⟩, ⟨"knob_b", some 10, some 20, some 5⟩], [], []⟩

/-- The mapping file used to refute claim C1: only `knob_a` is mapped. -/
def c1File : Json :=
  Json.obj [("config", Json.obj []),
    ("components", Json.obj [("knob_a", Json.obj [("type", Json.str "OccultKnob")])])]

/-- Claim C1 counterexample: the two parsed shapes coincide at (10, 20), yet
the overlap report is empty, because `knob_b` is unmapped and the overlap
loop skips unmapped components. -/
theorem validate_overlap_unmapped_cex :
    (SVGParser.parse c1Doc).map (fun comp => (comp.id, comp.x, comp.y))
      = [("knob_a", 10, 20), ("knob_b", 10, 20)]
    ∧ (SVGToJUCEConverter.validate (some c1File) c1Doc).overlaps = [] :=
  ⟨rfl, rfl⟩

/-- Drawing for the C1 witness: two mapped circles at the same position. -/
def c1WitnessDoc : SVGDoc :=
  ⟨[⟨"knob_a", some 10, some 20, some 5⟩, ⟨"knob_b", some 10, some 20, some 5⟩], [], []⟩

/-- Mapping entries for the C1 witness: both circles mapped as knobs. -/
def c1WitnessEntries : List (String × Json) :=
  [("knob_a", Json.obj [("type", Json.str "OccultKnob")]),
    ("knob_b", Json.obj [("type", Json.str "OccultKnob")])]

/-- Mapping file for the C1 witness. -/
def c1WitnessFile : Json :=
  Json.obj [("config", Json.obj []), ("components", Json.obj c1WitnessEntries)]

/-- The first parsed component of the C1 witness drawing. -/
def c1Comp1 : SVGComponent := ⟨"knob_a", "circle", 10, 20, 0, 0, 5, "", ""⟩

/-- The second parsed component of the C1 witness drawing. -/
def c1Comp2 : SVGComponent := ⟨"knob_b", "circle", 10, 20, 0, 0, 5, "", ""⟩

/-- Witness for C1: two mapped, coinciding knobs are reported as overlapping. -/
theorem validate_overlap_coincide_and_far_witness :
    (ComponentMapper.load (some c1WitnessFile) = ⟨Json.obj [], Json.obj c1WitnessEntries⟩
      ∧ c1WitnessEntries ≠ []
      ∧ List.Sublist [c1Comp1, c1Comp2] (SVGParser.parse c1WitnessDoc)
      ∧ ((SVGParser.parse c1WitnessDoc).map SVGComponent.id).Nodup
      ∧ overlapSkip c1WitnessEntries c1Comp1 = false
      ∧ overlapSkip c1WitnessEntries c1Comp2 = false
      ∧ c1Comp1.x = c1Comp2.x ∧ c1Comp1.y = c1Comp2.y)
    ∧ ("knob_a", "knob_b")
        ∈ (SVGToJUCEConverter.validate (some c1WitnessFile) c1WitnessDoc).overlaps :=
  ⟨⟨rfl, List.cons_ne_nil _ _, by decide, by decide, by decide, by decide, rfl, rfl⟩,
    (validate_overlap_coincide_and_far (some c1WitnessFile) (Json.obj []) c1WitnessEntries
      c1WitnessDoc rfl (List.cons_ne_nil _ _) c1Comp1 c1Comp2 (by decide) (by decide)
      (by decide) (by decide)).1 ⟨rfl, rfl⟩⟩
